import Mathlib

/-!
Verification of the mock-sensor telemetry generator
(`python_nodes/pub_test_python/mock_sensor.py`, `temp_pub.py`,
`covariances.py`): trajectory constants, noise injection, the launch
gate, the query handler, and the periodic publisher, embedded as Lean
definitions over the reals.
-/

namespace ZenohCI

noncomputable section

/-- python `math.radians(deg)`: converts degrees to radians. -/
def math_radians (deg : ℝ) : ℝ := deg * Real.pi / 180

/-- mock_sensor.py: `INITIAL_VELOCITY = 100.0`. -/
def INITIAL_VELOCITY : ℝ := 100

/-- mock_sensor.py: `GRAVITY = 9.81`. -/
def GRAVITY : ℝ := 9.81

/-- mock_sensor.py: `LAUNCH_ANGLE = math.radians(75)`. -/
def LAUNCH_ANGLE : ℝ := math_radians 75

/-- mock_sensor.py: `AZIMUTH_ANGLE = math.radians(30)`. -/
def AZIMUTH_ANGLE : ℝ := math_radians 30

/-- mock_sensor.py: `V0_X = INITIAL_VELOCITY * cos(LAUNCH_ANGLE) * cos(AZIMUTH_ANGLE)`. -/
def V0_X : ℝ := INITIAL_VELOCITY * Real.cos LAUNCH_ANGLE * Real.cos AZIMUTH_ANGLE

/-- mock_sensor.py: `V0_Y = INITIAL_VELOCITY * cos(LAUNCH_ANGLE) * sin(AZIMUTH_ANGLE)`. -/
def V0_Y : ℝ := INITIAL_VELOCITY * Real.cos LAUNCH_ANGLE * Real.sin AZIMUTH_ANGLE

/-- mock_sensor.py: `V0_Z = INITIAL_VELOCITY * sin(LAUNCH_ANGLE)`. -/
def V0_Z : ℝ := INITIAL_VELOCITY * Real.sin LAUNCH_ANGLE

/-- mock_sensor.py: `FLIGHT_TIME = 2 * V0_Z / GRAVITY`. -/
def FLIGHT_TIME : ℝ := 2 * V0_Z / GRAVITY

/-- mock_sensor.py: `MAX_ALTITUDE = (V0_Z**2) / (2 * GRAVITY)`. -/
def MAX_ALTITUDE : ℝ := V0_Z ^ 2 / (2 * GRAVITY)

/-- mock_sensor.py `get_position(t)`: ballistic position at elapsed time t. -/
def get_position (t : ℝ) : ℝ × ℝ × ℝ :=
  (V0_X * t, V0_Y * t, V0_Z * t - 0.5 * GRAVITY * t * t)

/-- mock_sensor.py `get_velocity(t)`. -/
def get_velocity (t : ℝ) : ℝ × ℝ × ℝ :=
  (V0_X, V0_Y, V0_Z - GRAVITY * t)

/-- mock_sensor.py `get_altitude(t)`. -/
def get_altitude (t : ℝ) : ℝ := V0_Z * t - 0.5 * GRAVITY * t * t

/-- mock_sensor.py `get_acceleration(t)`: constant, independent of t. -/
def get_acceleration (t : ℝ) : ℝ × ℝ × ℝ := (0, 0, -GRAVITY)

/-- mock_sensor.py `get_angular_velocity(t)`: synthetic oscillation keyed to flight phase. -/
def get_angular_velocity (t : ℝ) : ℝ × ℝ × ℝ :=
  let phase := t * 2 * Real.pi / FLIGHT_TIME
  (0.5 * Real.sin phase, 0.3 * Real.cos (phase * 1.5), 0.8 * Real.sin (phase * 0.7))

/-- covariances.py `NOISE_COVARIANCES`: the static sensor-type/field variance
table. Every key the program ever looks up is listed; keys absent from the
python dictionaries (which would raise there, but are never accessed) map to 0
here. -/
def NOISE_COVARIANCES (sensor field : String) : ℝ :=
  if sensor = "imu" then
    if field = "acceleration_x" then 100
    else if field = "acceleration_y" then 100
    else if field = "acceleration_z" then 100
    else 0
  else if sensor = "altitude" then
    if field = "altitude" then 1.0 else 0
  else if sensor = "gyro" then
    if field = "omega_x" then 0.01
    else if field = "omega_y" then 0.01
    else if field = "omega_z" then 0.01
    else 0
  else 0

/-- Modelled from the spec: `np.random.normal(mean, std_dev)` draws one
independent zero-mean Gaussian per call, scaled by the requested standard
deviation (spec 4.2: a zero-mean Gaussian sample drawn independently per
call from a process-wide random source). The stream of standard-normal
draws is made explicit as `g`, and call number `i` consumes draw `g i`. -/
def np_random_normal (g : ℕ → ℝ) (i : ℕ) (mean std_dev : ℝ) : ℝ :=
  mean + std_dev * g i

/-- mock_sensor.py `add_noise(value, std_dev) = value + np.random.normal(0, std_dev)`. -/
def add_noise (g : ℕ → ℝ) (i : ℕ) (value std_dev : ℝ) : ℝ :=
  value + np_random_normal g i 0 std_dev

/-- mock_sensor.py `get_noisy_imu(t)`: pre-launch the true value is 0 per
axis, in flight it is `get_acceleration(t)`; per-axis noise with the
configured standard deviation is added either way. -/
def get_noisy_imu (g : ℕ → ℝ) (launch_started : Bool) (t : ℝ) : ℝ × ℝ × ℝ :=
  if !launch_started then
    (add_noise g 0 0 (Real.sqrt (NOISE_COVARIANCES "imu" "acceleration_x")),
     add_noise g 1 0 (Real.sqrt (NOISE_COVARIANCES "imu" "acceleration_y")),
     add_noise g 2 0 (Real.sqrt (NOISE_COVARIANCES "imu" "acceleration_z")))
  else
    (add_noise g 0 (get_acceleration t).1 (Real.sqrt (NOISE_COVARIANCES "imu" "acceleration_x")),
     add_noise g 1 (get_acceleration t).2.1 (Real.sqrt (NOISE_COVARIANCES "imu" "acceleration_y")),
     add_noise g 2 (get_acceleration t).2.2 (Real.sqrt (NOISE_COVARIANCES "imu" "acceleration_z")))

/-- mock_sensor.py `get_noisy_altitude(t)`. -/
def get_noisy_altitude (g : ℕ → ℝ) (launch_started : Bool) (t : ℝ) : ℝ :=
  if !launch_started then
    add_noise g 0 0 (Real.sqrt (NOISE_COVARIANCES "altitude" "altitude"))
  else
    add_noise g 0 (get_altitude t) (Real.sqrt (NOISE_COVARIANCES "altitude" "altitude"))

/-- mock_sensor.py `get_noisy_gyro(t)`. -/
def get_noisy_gyro (g : ℕ → ℝ) (launch_started : Bool) (t : ℝ) : ℝ × ℝ × ℝ :=
  if !launch_started then
    (add_noise g 0 0 (Real.sqrt (NOISE_COVARIANCES "gyro" "omega_x")),
     add_noise g 1 0 (Real.sqrt (NOISE_COVARIANCES "gyro" "omega_y")),
     add_noise g 2 0 (Real.sqrt (NOISE_COVARIANCES "gyro" "omega_z")))
  else
    (add_noise g 0 (get_angular_velocity t).1 (Real.sqrt (NOISE_COVARIANCES "gyro" "omega_x")),
     add_noise g 1 (get_angular_velocity t).2.1 (Real.sqrt (NOISE_COVARIANCES "gyro" "omega_y")),
     add_noise g 2 (get_angular_velocity t).2.2 (Real.sqrt (NOISE_COVARIANCES "gyro" "omega_z")))

/-- The two module-level globals of mock_sensor.py: `launch_started = False`,
`launch_time = None`. -/
structure LaunchState where
  launch_started : Bool
  launch_time : Option ℝ

/-- mock_sensor.py `launch_handler(sample)`: on payload "s" it sets
`launch_started = True` and `launch_time = time.time()` unconditionally;
any other payload leaves the globals untouched. `now` stands for the
`time.time()` read inside the handler. -/
def launch_handler (message : String) (now : ℝ) (st : LaunchState) : LaunchState :=
  if message = "s" then { launch_started := true, launch_time := some now } else st

/-- Modelled from the spec: the flatbuffers-generated schema serializers
(`schemas.sensors`: IMU, Altitude, Gyro, Vec3) live under the repository's
`types/` directory, which is not under src/. Per spec 4.4 the encoder emits
a length-prefixed binary payload with a fixed field order and a fixed byte
width per scalar; `byteOf v k` models the external float-to-byte extraction
(byte `k` of the 4-byte IEEE-754 single-precision image of `v`). -/
def packF32 (byteOf : ℝ → Fin 4 → ℕ) (v : ℝ) : List ℕ :=
  (List.finRange 4).map (byteOf v)

/-- Modelled from the spec: a 3-component vector sub-record (spec 4.4
strategy (b)), its three scalar fields packed in fixed x, y, z order. -/
def packVec3 (byteOf : ℝ → Fin 4 → ℕ) (v : ℝ × ℝ × ℝ) : List ℕ :=
  packF32 byteOf v.1 ++ packF32 byteOf v.2.1 ++ packF32 byteOf v.2.2

/-- Modelled from the spec: the 4-byte little-endian length prefix of a
payload (spec 4.4: a length-prefixed binary payload). -/
def u32le (n : ℕ) : List ℕ :=
  [n % 256, n / 256 % 256, n / 256 ^ 2 % 256, n / 256 ^ 3 % 256]

/-- mock_sensor.py `serialize_imu(t)`: the noisy IMU reading packed as one
Vec3 acceleration record, length-prefixed. -/
def serialize_imu (byteOf : ℝ → Fin 4 → ℕ) (g : ℕ → ℝ) (launch_started : Bool)
    (t : ℝ) : List ℕ :=
  let body := packVec3 byteOf (get_noisy_imu g launch_started t)
  u32le body.length ++ body

/-- mock_sensor.py `serialize_altitude(t)`: the noisy scalar altitude,
length-prefixed. -/
def serialize_altitude (byteOf : ℝ → Fin 4 → ℕ) (g : ℕ → ℝ) (launch_started : Bool)
    (t : ℝ) : List ℕ :=
  let body := packF32 byteOf (get_noisy_altitude g launch_started t)
  u32le body.length ++ body

/-- mock_sensor.py `serialize_gyro(t)`: the three noisy angular-velocity
scalars packed in omega_x, omega_y, omega_z order, length-prefixed. -/
def serialize_gyro (byteOf : ℝ → Fin 4 → ℕ) (g : ℕ → ℝ) (launch_started : Bool)
    (t : ℝ) : List ℕ :=
  let body := packF32 byteOf (get_noisy_gyro g launch_started t).1 ++
    packF32 byteOf (get_noisy_gyro g launch_started t).2.1 ++
    packF32 byteOf (get_noisy_gyro g launch_started t).2.2
  u32le body.length ++ body

/-- mock_sensor.py `query_handler`, the `match broadcast_type` dispatch:
python's `match` on string literals with a `case _` fallthrough that
replies with `b""`. -/
def sensor_dispatch (byteOf : ℝ → Fin 4 → ℕ) (g : ℕ → ℝ) (broadcast_type : String)
    (launch_started : Bool) (elapsed : ℝ) : List ℕ :=
  if broadcast_type = "imu" then serialize_imu byteOf g launch_started elapsed
  else if broadcast_type = "altitude" then serialize_altitude byteOf g launch_started elapsed
  else if broadcast_type = "gyro" then serialize_gyro byteOf g launch_started elapsed
  else []

/-- mock_sensor.py `query_handler(query)`: the payload of the reply sent for
one inbound query, as a function of the configured `broadcast_type`, the
launch globals and the wall-clock instant `now` read inside the handler.
If the gate is unarmed (or `launch_time is None`) elapsed is `0.0`; else
elapsed is `now - launch_time`, and once `elapsed > FLIGHT_TIME` the reply
is the empty payload before any sensor dispatch. -/
def query_handler (byteOf : ℝ → Fin 4 → ℕ) (g : ℕ → ℝ) (broadcast_type : String)
    (st : LaunchState) (now : ℝ) : List ℕ :=
  if !st.launch_started || st.launch_time.isNone then
    sensor_dispatch byteOf g broadcast_type st.launch_started 0
  else
    let elapsed := now - st.launch_time.getD 0
    if elapsed > FLIGHT_TIME then []
    else sensor_dispatch byteOf g broadcast_type st.launch_started elapsed

/-- temp_pub.py `main`: the loop condition of the publishing loop is the
literal `while True:`, the same at every iteration. -/
def temp_pub_loop_cond (iteration : ℕ) : Bool := true

/-- temp_pub.py `main`: the publish trace after `n` loop iterations. Each
iteration reads one temperature sample (`read_temp`, an external uniform
random draw, modelled as the stream of its return values), packs it with
`struct.pack` (external, modelled as `pack`), and publishes the bytes to
the fixed topic `devices/temp`. -/
def temp_pub_trace (read_temp : ℕ → ℝ) (pack : ℝ → List ℕ) : ℕ → List (String × List ℕ)
  | 0 => []
  | n + 1 => temp_pub_trace read_temp pack n ++ [("devices/temp", pack (read_temp n))]

/-- A concrete byte-extraction function, used to instantiate witnesses. -/
def byteOf0 : ℝ → Fin 4 → ℕ := fun _ _ => 0

/-- A concrete standard-normal draw stream, used to instantiate witnesses. -/
def g0 : ℕ → ℝ := fun _ => 0

/-! Helper lemmas shared across the claim theorems. -/

lemma sin_LAUNCH_ANGLE_eq : Real.sin LAUNCH_ANGLE = (Real.sqrt 6 + Real.sqrt 2) / 4 := by
  have h : LAUNCH_ANGLE = Real.pi / 4 + Real.pi / 6 := by
    unfold LAUNCH_ANGLE math_radians
    ring
  rw [h, Real.sin_add, Real.sin_pi_div_four, Real.cos_pi_div_four, Real.cos_pi_div_six,
    Real.sin_pi_div_six]
  have h6 : Real.sqrt 6 = Real.sqrt 2 * Real.sqrt 3 := by
    rw [← Real.sqrt_mul (by norm_num : (0:ℝ) ≤ 2) 3]
    norm_num
  rw [h6]
  ring

lemma sqrt_two_gt : (1.4142 : ℝ) < Real.sqrt 2 :=
  (Real.lt_sqrt (by norm_num)).mpr (by norm_num)

lemma sqrt_two_lt : Real.sqrt 2 < 1.41422 :=
  (Real.sqrt_lt' (by norm_num)).mpr (by norm_num)

lemma sqrt_six_gt : (2.449 : ℝ) < Real.sqrt 6 :=
  (Real.lt_sqrt (by norm_num)).mpr (by norm_num)

lemma sqrt_six_lt : Real.sqrt 6 < 2.4495 :=
  (Real.sqrt_lt' (by norm_num)).mpr (by norm_num)

lemma sin_LAUNCH_ANGLE_bounds :
    (0.9658 : ℝ) < Real.sin LAUNCH_ANGLE ∧ Real.sin LAUNCH_ANGLE < 0.96593 := by
  rw [sin_LAUNCH_ANGLE_eq]
  constructor
  · linarith [sqrt_two_gt, sqrt_six_gt]
  · linarith [sqrt_two_lt, sqrt_six_lt]

lemma FLIGHT_TIME_bounds : (19.6901 : ℝ) < FLIGHT_TIME ∧ FLIGHT_TIME < 19.6928 := by
  obtain ⟨h1, h2⟩ := sin_LAUNCH_ANGLE_bounds
  unfold FLIGHT_TIME V0_Z INITIAL_VELOCITY GRAVITY
  constructor
  · rw [lt_div_iff₀ (by norm_num : (0:ℝ) < 9.81)]
    nlinarith
  · rw [div_lt_iff₀ (by norm_num : (0:ℝ) < 9.81)]
    nlinarith

lemma MAX_ALTITUDE_bounds : (475.41 : ℝ) < MAX_ALTITUDE ∧ MAX_ALTITUDE < 475.56 := by
  obtain ⟨h1, h2⟩ := sin_LAUNCH_ANGLE_bounds
  have hs : (0:ℝ) < Real.sin LAUNCH_ANGLE := by linarith
  unfold MAX_ALTITUDE V0_Z INITIAL_VELOCITY GRAVITY
  constructor
  · rw [lt_div_iff₀ (by norm_num : (0:ℝ) < 2 * 9.81)]
    nlinarith [sq_nonneg (Real.sin LAUNCH_ANGLE - 0.9658)]
  · rw [div_lt_iff₀ (by norm_num : (0:ℝ) < 2 * 9.81)]
    nlinarith [mul_pos (by linarith : (0:ℝ) < 0.96593 - Real.sin LAUNCH_ANGLE)
      (by linarith : (0:ℝ) < 0.96593 + Real.sin LAUNCH_ANGLE)]

lemma packF32_length (byteOf : ℝ → Fin 4 → ℕ) (v : ℝ) : (packF32 byteOf v).length = 4 := by
  simp [packF32]

lemma u32le_length (n : ℕ) : (u32le n).length = 4 := rfl

lemma serialize_imu_length (byteOf : ℝ → Fin 4 → ℕ) (g : ℕ → ℝ) (ls : Bool) (t : ℝ) :
    (serialize_imu byteOf g ls t).length = 16 := by
  simp [serialize_imu, packVec3, packF32, u32le]

lemma serialize_altitude_length (byteOf : ℝ → Fin 4 → ℕ) (g : ℕ → ℝ) (ls : Bool) (t : ℝ) :
    (serialize_altitude byteOf g ls t).length = 8 := by
  simp [serialize_altitude, packF32, u32le]

lemma serialize_gyro_length (byteOf : ℝ → Fin 4 → ℕ) (g : ℕ → ℝ) (ls : Bool) (t : ℝ) :
    (serialize_gyro byteOf g ls t).length = 16 := by
  simp [serialize_gyro, packF32, u32le]

lemma sqrt_hundred : Real.sqrt 100 = 10 :=
  (Real.sqrt_eq_iff_mul_self_eq_of_pos (by norm_num)).mpr (by norm_num)

lemma sqrt_one_point : Real.sqrt 1.0 = 1 := by
  rw [show (1.0 : ℝ) = 1 by norm_num, Real.sqrt_one]

lemma sqrt_centi : Real.sqrt 0.01 = 0.1 :=
  (Real.sqrt_eq_iff_mul_self_eq_of_pos (by norm_num)).mpr (by norm_num)

lemma get_noisy_imu_unarmed (g : ℕ → ℝ) (t : ℝ) :
    get_noisy_imu g false t = (10 * g 0, 10 * g 1, 10 * g 2) := by
  simp [get_noisy_imu, add_noise, np_random_normal, NOISE_COVARIANCES, sqrt_hundred]

lemma get_noisy_altitude_unarmed (g : ℕ → ℝ) (t : ℝ) :
    get_noisy_altitude g false t = g 0 := by
  simp [get_noisy_altitude, add_noise, np_random_normal, NOISE_COVARIANCES, sqrt_one_point]

lemma get_noisy_gyro_unarmed (g : ℕ → ℝ) (t : ℝ) :
    get_noisy_gyro g false t = (0.1 * g 0, 0.1 * g 1, 0.1 * g 2) := by
  simp [get_noisy_gyro, add_noise, np_random_normal, NOISE_COVARIANCES, sqrt_centi]

lemma sensor_dispatch_known_nonempty (byteOf : ℝ → Fin 4 → ℕ) (g : ℕ → ℝ)
    (ls : Bool) (e : ℝ) (bt : String)
    (h : bt = "imu" ∨ bt = "altitude" ∨ bt = "gyro") :
    sensor_dispatch byteOf g bt ls e ≠ [] := by
  apply List.ne_nil_of_length_pos
  rcases h with h | h | h <;> subst h <;>
    simp [sensor_dispatch, serialize_imu_length, serialize_altitude_length,
      serialize_gyro_length]

lemma temp_pub_trace_length (read_temp : ℕ → ℝ) (pack : ℝ → List ℕ) (n : ℕ) :
    (temp_pub_trace read_temp pack n).length = n := by
  induction n with
  | zero => rfl
  | succ k ih => simp [temp_pub_trace, ih]

/-! The claim theorems. -/

/-- Claim C1 counterexample: arming the gate at time 3 records t0 = 3, but a
second launch-trigger message with the designated token at time 5 overwrites
the recorded t0 with 5 — the second arm call is not a no-op. -/
theorem launch_handler_rearm_counterexample :
    (launch_handler "s" 3 ⟨false, none⟩).launch_time = some 3 ∧
    (launch_handler "s" 5 (launch_handler "s" 3 ⟨false, none⟩)).launch_time = some 5 ∧
    (some (5 : ℝ) : Option ℝ) ≠ some 3 := by
  refine ⟨by simp [launch_handler], by simp [launch_handler], ?_⟩
  simp only [ne_eq, Option.some.injEq]
  norm_num

/-- Claim C1 amended: every launch-trigger message with the designated token
sets `launch_started` to True and overwrites `launch_time` with the message's
arrival instant; the flag never returns to Unarmed, but a second arm call
re-records t0 as the later instant instead of being a no-op. -/
theorem launch_handler_rearm (st : LaunchState) (t1 t2 : ℝ) :
    launch_handler "s" t1 st = { launch_started := true, launch_time := some t1 } ∧
    launch_handler "s" t2 (launch_handler "s" t1 st) =
      { launch_started := true, launch_time := some t2 } := by
  constructor <;> simp [launch_handler]

/-- Claim C2 counterexample: with the unrecognized sensor type
"magnetometer" the process is still serving requests (no startup failure is
modelled because the source performs no startup validation), and the
per-request fallthrough of `query_handler` answers such a request — both
before arming and mid-flight — with the empty payload. -/
theorem unknown_sensor_type_counterexample :
    query_handler byteOf0 g0 "magnetometer" ⟨false, none⟩ 0 = [] ∧
    query_handler byteOf0 g0 "magnetometer" ⟨true, some 0⟩ 1 = [] := by
  constructor
  · simp [query_handler, sensor_dispatch]
  · have h : ¬((1 : ℝ) - 0 > FLIGHT_TIME) := by
      have := FLIGHT_TIME_bounds.1
      simp only [not_lt, sub_zero]
      linarith
    simp [query_handler, sensor_dispatch, h]

/-- Claim C2 amended: an unrecognized sensor-type configuration value is not
detected at startup; instead every inbound request under an unknown
`broadcast_type` is handled per-request by the `case _` fallthrough of
`query_handler`, which replies with the zero-length payload, in every gate
state. -/
theorem query_unknown_type_per_request (byteOf : ℝ → Fin 4 → ℕ) (g : ℕ → ℝ)
    (broadcast_type : String) (st : LaunchState) (now : ℝ)
    (h1 : broadcast_type ≠ "imu") (h2 : broadcast_type ≠ "altitude")
    (h3 : broadcast_type ≠ "gyro") :
    query_handler byteOf g broadcast_type st now = [] := by
  simp [query_handler, sensor_dispatch, h1, h2, h3]

/-- Claim C2 amended, witness at the concrete unknown type "baro". -/
theorem query_unknown_type_per_request_witness :
    query_handler byteOf0 g0 "baro" ⟨false, none⟩ 0 = [] :=
  query_unknown_type_per_request byteOf0 g0 "baro" ⟨false, none⟩ 0
    (by decide) (by decide) (by decide)

/-- Claim C3: in query/reply mode, a request arriving with the gate armed at
t0 and with elapsed time `now - t0` strictly greater than `FLIGHT_TIME` is
answered with the zero-length payload, regardless of the configured sensor
type; no dispatch to any sensor serializer happens on that path. -/
theorem query_post_flight_empty (byteOf : ℝ → Fin 4 → ℕ) (g : ℕ → ℝ)
    (broadcast_type : String) (t0 now : ℝ) (h : now - t0 > FLIGHT_TIME) :
    query_handler byteOf g broadcast_type ⟨true, some t0⟩ now = [] := by
  simp [query_handler, h]

/-- Claim C3, witness: a query at now = 25 with the gate armed at t0 = 0 is
past the flight time (about 19.69 s) and receives the empty payload. -/
theorem query_post_flight_empty_witness :
    query_handler byteOf0 g0 "imu" ⟨true, some 0⟩ 25 = [] :=
  query_post_flight_empty byteOf0 g0 "imu" 0 25
    (by have := FLIGHT_TIME_bounds.2; simp only [sub_zero]; linarith)

/-- Claim C4 counterexample: with the configured parameters, FLIGHT_TIME is
more than 14 seconds away from the claimed 5.08 s, and MAX_ALTITUDE more
than 340 m away from the claimed 126.3 m — the claimed numeric values do not
hold for the code's constants. -/
theorem flight_constants_counterexample :
    (14 : ℝ) < |FLIGHT_TIME - 5.08| ∧ (340 : ℝ) < |MAX_ALTITUDE - 126.3| := by
  obtain ⟨hf1, hf2⟩ := FLIGHT_TIME_bounds
  obtain ⟨hm1, hm2⟩ := MAX_ALTITUDE_bounds
  constructor
  · rw [abs_of_pos (by linarith)]
    linarith
  · rw [abs_of_pos (by linarith)]
    linarith

/-- Claim C4 amended: with initial_speed = 100, launch_angle = 75 degrees,
azimuth = 30 degrees, gravity = 9.81, the derived constants satisfy
flight_time = 2 * v0z / gravity ≈ 19.69 s and
max_altitude = v0z^2 / (2 * gravity) ≈ 475.5 m, where
v0z = initial_speed * sin(launch_angle). -/
theorem flight_constants_amended :
    FLIGHT_TIME = 2 * V0_Z / GRAVITY ∧
    MAX_ALTITUDE = V0_Z ^ 2 / (2 * GRAVITY) ∧
    V0_Z = INITIAL_VELOCITY * Real.sin LAUNCH_ANGLE ∧
    |FLIGHT_TIME - 19.69| < 0.01 ∧ |MAX_ALTITUDE - 475.5| < 0.2 := by
  obtain ⟨hf1, hf2⟩ := FLIGHT_TIME_bounds
  obtain ⟨hm1, hm2⟩ := MAX_ALTITUDE_bounds
  refine ⟨rfl, rfl, rfl, ?_, ?_⟩ <;> rw [abs_lt] <;> constructor <;> linarith

/-- Claim C5: the encoded payload length is a pure function of the sensor
type alone — for every byte-extraction function and across arbitrarily many
encode calls with arbitrary noise draws, gate flags and elapsed times, the
IMU payload is always 16 bytes, the altitude payload 8 bytes and the gyro
payload 16 bytes. -/
theorem encoder_length_constant (byteOf : ℝ → Fin 4 → ℕ) (g1 g2 g3 : ℕ → ℝ)
    (ls1 ls2 ls3 : Bool) (t1 t2 t3 : ℝ) :
    (serialize_imu byteOf g1 ls1 t1).length = 16 ∧
    (serialize_altitude byteOf g2 ls2 t2).length = 8 ∧
    (serialize_gyro byteOf g3 ls3 t3).length = 16 :=
  ⟨serialize_imu_length byteOf g1 ls1 t1, serialize_altitude_length byteOf g2 ls2 t2,
    serialize_gyro_length byteOf g3 ls3 t3⟩

/-- Claim C6: a request arriving while the launch gate is not yet armed is
served with elapsed time 0, its reply is the (non-empty) encoded reading of
the configured sensor type, and the underlying unarmed readings are pure
noise around a true value of zero scaled by the configured per-field
standard deviation (10 for each IMU axis, 1 for altitude, 0.1 for each gyro
axis). -/
theorem query_unarmed_noisy_zero (byteOf : ℝ → Fin 4 → ℕ) (g : ℕ → ℝ)
    (broadcast_type : String) (lt0 : Option ℝ) (now : ℝ)
    (h : broadcast_type = "imu" ∨ broadcast_type = "altitude" ∨ broadcast_type = "gyro") :
    query_handler byteOf g broadcast_type ⟨false, lt0⟩ now =
      sensor_dispatch byteOf g broadcast_type false 0 ∧
    query_handler byteOf g broadcast_type ⟨false, lt0⟩ now ≠ [] ∧
    get_noisy_imu g false 0 = (10 * g 0, 10 * g 1, 10 * g 2) ∧
    get_noisy_altitude g false 0 = g 0 ∧
    get_noisy_gyro g false 0 = (0.1 * g 0, 0.1 * g 1, 0.1 * g 2) := by
  have hq : query_handler byteOf g broadcast_type ⟨false, lt0⟩ now =
      sensor_dispatch byteOf g broadcast_type false 0 := by
    simp [query_handler]
  refine ⟨hq, ?_, get_noisy_imu_unarmed g 0, get_noisy_altitude_unarmed g 0,
    get_noisy_gyro_unarmed g 0⟩
  rw [hq]
  exact sensor_dispatch_known_nonempty byteOf g false 0 broadcast_type h

/-- Claim C6, witness at the concrete sensor type "imu", unarmed gate. -/
theorem query_unarmed_noisy_zero_witness :
    query_handler byteOf0 g0 "imu" ⟨false, none⟩ 0 =
      sensor_dispatch byteOf0 g0 "imu" false 0 ∧
    query_handler byteOf0 g0 "imu" ⟨false, none⟩ 0 ≠ [] ∧
    get_noisy_imu g0 false 0 = (10 * g0 0, 10 * g0 1, 10 * g0 2) ∧
    get_noisy_altitude g0 false 0 = g0 0 ∧
    get_noisy_gyro g0 false 0 = (0.1 * g0 0, 0.1 * g0 1, 0.1 * g0 2) :=
  query_unarmed_noisy_zero byteOf0 g0 "imu" none 0 (Or.inl rfl)

/-- Claim C9 counterexample: at iteration 30 the broadcast loop's elapsed
time (one iteration per second) already exceeds FLIGHT_TIME (about 19.69 s,
in particular below 30 s), yet the loop condition is still `True` and after
31 iterations 31 readings have been published — the loop does not terminate
once flight time is exceeded. -/
theorem temp_pub_counterexample :
    FLIGHT_TIME < 30 ∧ temp_pub_loop_cond 30 = true ∧
    (temp_pub_trace (fun _ => 0) (fun _ => [0, 0, 0, 0]) 31).length = 31 := by
  refine ⟨by have := FLIGHT_TIME_bounds.2; linarith, rfl, ?_⟩
  exact temp_pub_trace_length (fun _ => 0) (fun _ => [0, 0, 0, 0]) 31

/-- Claim C9 amended: the broadcast-mode publishing loop of temp_pub.py is
`while True:` — its condition holds at every iteration, it never consults
elapsed time or FLIGHT_TIME, and after n iterations exactly n readings have
been published, for every n; the loop never terminates on its own (the
process ends only by external interruption). -/
theorem temp_pub_loop_runs_forever (read_temp : ℕ → ℝ) (pack : ℝ → List ℕ) (n : ℕ) :
    temp_pub_loop_cond n = true ∧ (temp_pub_trace read_temp pack n).length = n :=
  ⟨rfl, temp_pub_trace_length read_temp pack n⟩

/-- Claim C7: the noise-injection operation with variance 0 (the code passes
`sqrt(variance)` as the standard deviation, so `sqrt 0` and `0` are both
covered) returns the input value exactly, for every value and for every
behaviour of the random draw stream. -/
theorem add_noise_variance_zero (g : ℕ → ℝ) (i : ℕ) (v : ℝ) :
    add_noise g i v (Real.sqrt 0) = v ∧ add_noise g i v 0 = v := by
  unfold add_noise np_random_normal
  rw [Real.sqrt_zero]
  constructor <;> ring

/-- Claim C8: the z-component of `get_position` evaluated at `FLIGHT_TIME`
is exactly 0 (hence within every positive epsilon), by construction of
`FLIGHT_TIME = 2 * V0_Z / GRAVITY`. -/
theorem position_z_at_flight_time :
    (get_position FLIGHT_TIME).2.2 = 0 ∧ |(get_position FLIGHT_TIME).2.2| < 0.000001 := by
  have h : (get_position FLIGHT_TIME).2.2 = 0 := by
    show V0_Z * FLIGHT_TIME - 0.5 * GRAVITY * FLIGHT_TIME * FLIGHT_TIME = 0
    unfold FLIGHT_TIME GRAVITY
    field_simp
    ring
  refine ⟨h, ?_⟩
  rw [h]
  norm_num

/-- Claim C10: for every elapsed time t, the scalar altitude function agrees
exactly with the z-component of the position function — both compute
`V0_Z * t - 0.5 * GRAVITY * t * t` from the same module constants. -/
theorem get_altitude_eq_position_z (t : ℝ) : get_altitude t = (get_position t).2.2 := rfl

end

end ZenohCI
